import Mathlib

/-!
# Verification of the TinyCheck diagnostics collector

Shallow embedding of `server/backend/diagnostics.py` (TinyCheck diagnostics
script, version 1.0.17).  Every external facility the script consults
(psutil, platform, socket, pkg_resources, os, subprocess) is modelled as an
explicit environment record; a Python exception raised by a call is modelled
as `Except.error`, and a Python function that can raise is embedded as a
function into `Except String _`.  Python dictionaries are modelled as
association lists with Python's assignment semantics (`dinsert`): assigning
to an existing key replaces its value in place, assigning to a fresh key
appends it.
-/

set_option maxHeartbeats 1000000

namespace TinyCheck

/-- Python dict assignment `d[k] = v`: replace in place if `k` is present,
append otherwise (Python dicts preserve insertion order). -/
def dinsert (k : String) (v : α) : List (String × α) → List (String × α)
  | [] => [(k, v)]
  | (k₀, v₀) :: rest => if k₀ = k then (k, v) :: rest else (k₀, v₀) :: dinsert k v rest

/-- Python dict lookup `d[k]` returning `none` when the key is absent. -/
def lookupD (k : String) : List (String × α) → Option α
  | [] => none
  | (k₀, v) :: rest => if k₀ = k then some v else lookupD k rest

/-- Contiguous-sublist test on character lists (Python's `needle in hay`
for strings). -/
def listInfix (needle : List Char) : List Char → Bool
  | [] => needle.isEmpty
  | c :: t => needle.isPrefixOf (c :: t) || listInfix needle t

/-- Python's substring operator `needle in hay`. -/
def substrOf (needle hay : String) : Bool :=
  listInfix needle.data hay.data

/-- Strip leading and trailing whitespace from a character list. -/
def stripWs (l : List Char) : List Char :=
  ((l.dropWhile Char.isWhitespace).reverse.dropWhile Char.isWhitespace).reverse

/-- Parse a non-empty all-digit character list as a natural number. -/
def parseDigits (ds : List Char) : Option Nat :=
  if ds.isEmpty then none
  else if ds.all fun c => c.isDigit then
    some (ds.foldl (fun acc c => acc * 10 + (c.toNat - 48)) 0)
  else none

/-- Python's `int(s)`: strip surrounding whitespace, accept an optional
sign followed by decimal digits; raise `ValueError` otherwise. -/
def parseIntPy (s : String) : Except String Int :=
  match stripWs s.data with
  | '-' :: ds =>
    match parseDigits ds with
    | some n => .ok (-(n : Int))
    | none => .error "ValueError"
  | '+' :: ds =>
    match parseDigits ds with
    | some n => .ok (n : Int)
    | none => .error "ValueError"
  | ds =>
    match parseDigits ds with
    | some n => .ok (n : Int)
    | none => .error "ValueError"

/-- Lowercase a string character by character (the normalization
`pkg_resources` applies to distribution keys). -/
def lowerStr (s : String) : String :=
  ⟨s.data.map Char.toLower⟩

/-! ## Accounts probe (`collect_accounts_info`) -/

/-- One entry of `psutil.users()`: a logged-in session. -/
structure UserSession where
  name : String
  host : String
  started : Int
  terminal : Option String
deriving DecidableEq

/-- A value of the accounts dict: either a session record
(`{started, term}`) or the synthetic self record (`{pid}`). -/
inductive AccountVal where
  | session (started : Int) (term : Option String)
  | selfEntry (pid : Nat)
deriving DecidableEq

/-- Environment consulted by `collect_accounts_info`. -/
structure AcctEnv where
  /-- `psutil.users()` -/
  users : List UserSession
  /-- `os.getenv('SUDO_USER')` -/
  sudoUser : Option String
  /-- `os.getenv('USER')` -/
  userVar : Option String
  /-- whether `os.path.expanduser('~') == '/root'` -/
  homeIsRoot : Bool
  /-- `psutil.Process().pid` -/
  pid : Nat
  /-- `platform.system()` -/
  system : String
  /-- `psutil.Process().terminal()` (may be `None`) -/
  terminal : Option String

/-- `usr = 'root' if os.path.expanduser('~') == '/root' else
os.getenv('SUDO_USER', os.getenv('USER'))`. -/
def acct_user (env : AcctEnv) : Option String :=
  if env.homeIsRoot then some "root"
  else match env.sudoUser with
       | some u => some u
       | none => env.userVar

/-- `term = psutil.Process().terminal() if 'Linux' in platform.system()
else 'win'`. -/
def acct_term (env : AcctEnv) : Option String :=
  if substrOf "Linux" env.system then env.terminal else some "win"

/-- `collect_accounts_info`.  Concatenating `None` with `'@'` raises a
`TypeError` in Python, hence the `Except`. -/
def collect_accounts_info (env : AcctEnv) :
    Except String (List (String × AccountVal)) :=
  let accs := env.users.foldl
    (fun accs user =>
      dinsert (user.name ++ "@" ++ user.host)
        (.session user.started user.terminal) accs) []
  match acct_user env, acct_term env with
  | some u, some t => .ok (dinsert (u ++ "@" ++ t) (.selfEntry env.pid) accs)
  | _, _ => .error "TypeError"

/-! ## OS probe (`collect_os_info`) -/

/-- Environment consulted by `collect_os_info`. -/
structure OsEnv where
  /-- `platform.system()` -/
  system : String
  /-- `platform.release()` -/
  release : String
  /-- `platform.version()` -/
  version : String
  /-- `platform.platform(aliased=True)` -/
  platformStr : String
  /-- `platform.win32_ver()` -/
  win32_ver : String × String × String × String
  /-- `platform.libc_ver()` -/
  libc_ver : String × String

/-- The `dist` field: `platform.win32_ver()` on Windows,
`platform.libc_ver()` on Linux. -/
inductive DistInfo where
  | win (v : String × String × String × String)
  | linux (v : String × String)
deriving DecidableEq

/-- Result shape of `collect_os_info`. -/
structure OsInfo where
  system : String
  release : String
  version : String
  platformStr : String
  dist : Option DistInfo
deriving DecidableEq

/-- `collect_os_info` (never raises). -/
def collect_os_info (env : OsEnv) : OsInfo :=
  let base : OsInfo :=
    { system := env.system, release := env.release, version := env.version
      platformStr := env.platformStr, dist := none }
  let base :=
    if substrOf "Windows" env.system then
      { base with dist := some (.win env.win32_ver) }
    else base
  if substrOf "Linux" env.system then
    { base with dist := some (.linux env.libc_ver) }
  else base

/-! ## Hardware probe (`collect_hardware_info`) -/

/-- Environment consulted by `collect_hardware_info`.  Load averages are
floats in the source; no claim inspects their values, so the three numbers
are abstracted as integers, but the fallibility of `psutil.getloadavg()`
(it raises `OSError` on unsupported platforms) is kept. -/
structure HwEnv where
  /-- `platform.architecture()` -/
  arch : String × String
  /-- `platform.machine()` -/
  machine : String
  /-- `psutil.cpu_count(logical=False)` (may be `None`) -/
  cpus : Option Nat
  /-- `psutil.cpu_count()` (may be `None`) -/
  cores : Option Nat
  /-- `psutil.getloadavg()` -/
  loadavg : Except String (Int × Int × Int)
  /-- `psutil.disk_usage('/').total` -/
  diskTotal : Nat
  /-- `psutil.disk_usage('/').used` -/
  diskUsed : Nat
  /-- `psutil.disk_usage('/').free` -/
  diskFree : Nat

/-- The `disk` sub-dict of the hardware report. -/
structure DiskInfo where
  total : Nat
  used : Nat
  free : Nat
deriving DecidableEq

/-- Result shape of `collect_hardware_info`. -/
structure HwInfo where
  arch : String × String
  machine : String
  cpus : Option Nat
  cores : Option Nat
  load : Int × Int × Int
  disk : DiskInfo
deriving DecidableEq

/-- `collect_hardware_info`. -/
def collect_hardware_info (env : HwEnv) : Except String HwInfo := do
  let load ← env.loadavg
  .ok { arch := env.arch, machine := env.machine, cpus := env.cpus
        cores := env.cores, load := load
        disk := ⟨env.diskTotal, env.diskUsed, env.diskFree⟩ }

/-! ## Network probe (`collect_network_info`) -/

/-- Environment consulted by `collect_network_info`.  A per-interface
counter object of `psutil.net_io_counters(pernic=True)` is modelled as the
association list of its public attribute names and (integer) values. -/
structure NetEnv where
  /-- `socket.if_nameindex()` -/
  nameindex : List (Nat × String)
  /-- keys of `psutil.net_if_addrs()` -/
  addrsKeys : List String
  /-- `psutil.net_io_counters(pernic=True)` -/
  ioCounters : List (String × List (String × Int))

/-- Python's `s.startswith(pre)`. -/
def startsWithPy (pre s : String) : Bool :=
  pre.data.isPrefixOf s.data

/-- The attribute filter of the interface loop: keep names not starting
with an underscore and different from `index` and `count`. -/
def netProps (attrs : List (String × Int)) : List (String × Int) :=
  attrs.filter (fun p => !startsWithPy "_" p.1 && p.1 != "index" && p.1 != "count")

/-- The `for interface in addrs.keys()` loop; `state[interface]` raises
`KeyError` when the interface has no counter entry. -/
def net_loop (counters : List (String × List (String × Int))) :
    List String → List (String × List (String × Int)) →
    Except String (List (String × List (String × Int)))
  | [], acc => .ok acc
  | interface :: rest, acc =>
    match lookupD interface counters with
    | some int_info => net_loop counters rest (dinsert interface (netProps int_info) acc)
    | none => .error "KeyError"

/-- Result shape of `collect_network_info` (the source stores `namei` as a
sibling key of the interface entries in one dict; the two parts are split
into fields here). -/
structure NetInfo where
  namei : List (Nat × String)
  ifaces : List (String × List (String × Int))
deriving DecidableEq

/-- `collect_network_info`. -/
def collect_network_info (env : NetEnv) : Except String NetInfo := do
  let ifaces ← net_loop env.ioCounters env.addrsKeys []
  .ok { namei := env.nameindex, ifaces := ifaces }

/-! ## Dependency probe (`collect_dependency_info`) -/

/-- Insert a string into an already sorted list (lexicographic order on
code points, as Python's `sorted` on strings). -/
def insortStr (s : String) : List String → List String
  | [] => [s]
  | x :: xs => if s ≤ x then s :: x :: xs else x :: insortStr s xs

/-- Python's `sorted` on a list of strings (insertion sort; only the
multiset of elements matters for the claims). -/
def sortStr : List String → List String
  | [] => []
  | x :: xs => insortStr x (sortStr xs)

/-- Python's `s.split('==')` on character lists: scan left to right,
cutting at each non-overlapping occurrence of `==`. -/
def splitEqEqAux : List Char → List Char → List (List Char)
  | [], cur => [cur.reverse]
  | '=' :: '=' :: rest, cur => cur.reverse :: splitEqEqAux rest []
  | c :: rest, cur => splitEqEqAux rest (c :: cur)

/-- Python's `s.split('==')`. -/
def pysplitEqEq (s : String) : List String :=
  (splitEqEqAux s.data []).map fun l => ⟨l⟩

/-- The `for pkg in installed_packages_list` loop of
`collect_dependency_info`; the destructuring assignment
`[package_name, package_version] = pkg.split('==')` raises `ValueError`
unless the split has exactly two parts. -/
def depLoop (package_list : List String) :
    List String → List (String × String) → Except String (List (String × String))
  | [], deps => .ok deps
  | pkg :: rest, deps =>
    match pysplitEqEq pkg with
    | [package_name, package_version] =>
      depLoop package_list rest
        (if package_list.contains package_name
         then dinsert package_name package_version deps
         else deps)
    | _ => .error "ValueError"

/-- `collect_dependency_info(package_list)`.  `installed` models
`pkg_resources.working_set` as the list of `(installed.key,
installed.version)` pairs. -/
def collect_dependency_info (installed : List (String × String))
    (package_list : List String) : Except String (List (String × String)) :=
  let installed_packages_list :=
    sortStr (installed.map fun p => p.1 ++ "==" ++ p.2)
  depLoop package_list installed_packages_list []

/-! ## Datastore inspector (`collect_db_tables_records_count` and the db
half of `collect_internal_state`) -/

/-- Environment consulted by the datastore inspection. -/
structure DbEnv where
  /-- `os.path.isfile(path)` -/
  isfile : String → Bool
  /-- `os.stat(path).st_size` -/
  statSize : String → Nat
  /-- `subprocess.Popen(args, stdout=PIPE)` for the `sqlite3` binary
  followed by `communicate()`: the decoded stdout, or an error when the
  spawn itself raises (e.g. `FileNotFoundError` for a missing binary). -/
  sqlite3 : List String → Except String String

/-- `collect_db_tables_records_count(db_path, tables)`, written as the
source's `for table in tables` loop with the result dict as accumulator.
`int(val) if val else 0`: empty stdout counts as zero, non-empty stdout is
parsed by `int` (raising `ValueError` when unparsable). -/
def collect_db_tables_records_count (env : DbEnv) (db_path : String) :
    List String → List (String × Int) → Except String (List (String × Int))
  | [], result => .ok result
  | table :: rest, result => do
    let query := "SELECT COUNT(*) FROM " ++ table
    let val ← env.sqlite3 ["sqlite3", db_path, query]
    let recs ← if val = "" then .ok (0 : Int) else parseIntPy val
    collect_db_tables_records_count env db_path rest (dinsert table recs result)

/-! ## Service-status checker and internal-state aggregator
(`collect_internal_state`) -/

/-- Environment consulted by the service checks. -/
structure SvcEnv where
  /-- `subprocess.call(args)`: the exit status, or an error when the spawn
  raises (e.g. `FileNotFoundError` for a missing `systemctl` binary). -/
  call : List String → Except String Int
  /-- `subprocess.Popen(args, stdout=PIPE, stderr=PIPE)` followed by
  `communicate()`: the decoded `(stdout, stderr)` pair, or an error when
  the spawn raises. -/
  popen : List String → Except String (String × String)

/-- The two-character string `''` that the source passes as a (useless)
trailing argument to `systemctl status`. -/
def twoQuotes : String := ⟨[Char.ofNat 39, Char.ofNat 39]⟩

/-- One entry of the `svc` mapping: `{running, status, state}`. -/
structure SvcEntry where
  running : Bool
  status : Int
  state : String
deriving DecidableEq

/-- The body of the `for alias in to_check` loop of
`collect_internal_state`, for one service identifier: query
`systemctl is-active --quiet`, and when the exit status is non-zero query
`systemctl status` (with the source's stray `|`, `grep`, `''` arguments)
and replace the status text by `'Service not found'` when stderr contains
`could not be found`. -/
def checkService (env : SvcEnv) (svcId : String) : Except String SvcEntry := do
  let status ← env.call ["systemctl", "is-active", "--quiet", svcId]
  let state ←
    if status ≠ 0 then do
      let r ← env.popen ["systemctl", "status", svcId, "|", "grep", twoQuotes]
      let stout := r.1
      let sterr := r.2
      .ok (if substrOf "could not be found" sterr then "Service not found" else stout)
    else .ok ""
  .ok { running := status == 0, status := status, state := state }

/-- The `for alias in to_check` loop, with the `services_` dict as
accumulator. -/
def collect_services (env : SvcEnv) :
    List (String × String) → List (String × SvcEntry) →
    Except String (List (String × SvcEntry))
  | [], acc => .ok acc
  | (alias_, svcId) :: rest, acc => do
    let entry ← checkService env svcId
    collect_services env rest (dinsert alias_ entry acc)

/-- The `db` sub-dict of the internal state:
`{available, size, records}`. -/
structure DbState where
  available : Bool
  size : Nat
  records : List (String × Int)
deriving DecidableEq

/-- Result shape of `collect_internal_state`: `{db, svc}`. -/
structure InternalState where
  db : DbState
  svc : List (String × SvcEntry)
deriving DecidableEq

/-- `collect_internal_state(db_path, tables, to_check)`; `to_check` is the
alias → service-identifier dict, modelled as an association list in
insertion order. -/
def collect_internal_state (dbEnv : DbEnv) (svcEnv : SvcEnv)
    (db_path : String) (tables : List String)
    (to_check : List (String × String)) : Except String InternalState := do
  let available := dbEnv.isfile db_path
  let db₀ : DbState := { available := available, size := 0, records := [] }
  let db ←
    if available then do
      let recs ← collect_db_tables_records_count dbEnv db_path tables []
      .ok { db₀ with size := dbEnv.statSize db_path, records := recs }
    else .ok db₀
  let services ← collect_services svcEnv to_check []
  .ok { db := db, svc := services }

/-! ## Report builder (`main`) -/

/-- The hardcoded datastore path of `main`. -/
def tc_db_path : String := "/usr/share/tinycheck/tinycheck.sqlite3"

/-- The hardcoded table list of `main`. -/
def tc_tables : List String := ["iocs", "whitelist", "misp"]

/-- The hardcoded alias → service map of `main`, in insertion order. -/
def tc_services : List (String × String) :=
  [("frontend", "tinycheck-frontend.service"),
   ("backend", "tinycheck-backend.service"),
   ("kiosk", "tinycheck-kiosk.service"),
   ("watchers", "tinycheck-watchers.service")]

/-- The hardcoded dependency allow-list of `main`. -/
def tc_deps : List String :=
  ["pymisp", "sqlalchemy", "ipwhois",
   "netaddr", "flask", "flask_httpauth",
   "pyjwt", "psutil", "pydig", "pyudev",
   "pyyaml", "wifi", "qrcode", "netifaces",
   "weasyprint", "python-whois", "six"]

/-- The whole world `main` runs against. -/
structure Env where
  acct : AcctEnv
  osi : OsEnv
  hw : HwEnv
  net : NetEnv
  /-- `pkg_resources.working_set` as `(key, version)` pairs -/
  installed : List (String × String)
  db : DbEnv
  svc : SvcEnv

/-- The assembled `diagnostics` dict: the six sections in the order `main`
fills them (`acc`, `os`, `hw`, `net`, `deps`, `state`). -/
structure Report where
  acc : List (String × AccountVal)
  os : OsInfo
  hw : HwInfo
  net : NetInfo
  deps : List (String × String)
  state : InternalState
deriving DecidableEq

/-- `main`, up to the printing: build the report from the six collectors
with the hardcoded configuration.  Any exception of a collector propagates
and no report is produced. -/
def main (env : Env) : Except String Report := do
  let acc ← collect_accounts_info env.acct
  let os := collect_os_info env.osi
  let hw ← collect_hardware_info env.hw
  let net ← collect_network_info env.net
  let deps ← collect_dependency_info env.installed tc_deps
  let state ← collect_internal_state env.db env.svc tc_db_path tc_tables tc_services
  .ok { acc := acc, os := os, hw := hw, net := net, deps := deps, state := state }

/-! ## Concrete environments used as witnesses and counterexamples -/

/-- A run with no logged-in sessions, `SUDO_USER=pi`, a real terminal. -/
def goodAcctEnv : AcctEnv :=
  { users := [], sudoUser := some "pi", userVar := none, homeIsRoot := false
    pid := 10, system := "Linux", terminal := some "/dev/pts/0" }

/-- An accounts environment where the session key of the single logged-in
user coincides with the synthetic self-entry key `root@tty1`. -/
def collideAcctEnv : AcctEnv :=
  { users := [⟨"root", "tty1", 5, some "t"⟩], sudoUser := none, userVar := none
    homeIsRoot := true, pid := 42, system := "Linux", terminal := some "tty1" }

/-- A plain Linux identity. -/
def goodOsEnv : OsEnv :=
  { system := "Linux", release := "r", version := "v", platformStr := "p"
    win32_ver := ("", "", "", ""), libc_ver := ("glibc", "2.31") }

/-- Hardware facts where every counter is supported. -/
def goodHwEnv : HwEnv :=
  { arch := ("64bit", "ELF"), machine := "x86_64", cpus := some 4, cores := some 4
    loadavg := .ok (0, 0, 0), diskTotal := 100, diskUsed := 40, diskFree := 60 }

/-- One loopback interface whose counter entry is present. -/
def goodNetEnv : NetEnv :=
  { nameindex := [(1, "lo")], addrsKeys := ["lo"]
    ioCounters := [("lo", [("bytes_sent", 5), ("index", 9)])] }

/-- An interface listed by `net_if_addrs` but absent from
`net_io_counters(pernic=True)` (psutil documents that the two views can
disagree). -/
def badNetEnv : NetEnv :=
  { nameindex := [(2, "eth0")], addrsKeys := ["eth0"], ioCounters := [] }

/-- Datastore absent. -/
def cdbF : DbEnv :=
  { isfile := fun _ => false, statSize := fun _ => 0, sqlite3 := fun _ => .ok "" }

/-- Datastore present (7 bytes), every count query printing `3`. -/
def cdbT : DbEnv :=
  { isfile := fun _ => true, statSize := fun _ => 7, sqlite3 := fun _ => .ok "3" }

/-- Datastore present, the `iocs` count query printing garbage and every
other query printing `5`. -/
def envJunk : DbEnv :=
  { isfile := fun _ => true, statSize := fun _ => 7
    sqlite3 := fun args =>
      if args.contains "SELECT COUNT(*) FROM iocs" then .ok "junk" else .ok "5" }

/-- Datastore present, every count query printing nothing. -/
def envEmptyOut : DbEnv :=
  { isfile := fun _ => true, statSize := fun _ => 7, sqlite3 := fun _ => .ok "" }

/-- A supervisor on which every service is active. -/
def csvc0 : SvcEnv := { call := fun _ => .ok 0, popen := fun _ => .ok ("", "") }

/-- A host without the `systemctl` binary: spawning it raises
`FileNotFoundError`. -/
def envNoBin : SvcEnv :=
  { call := fun _ => .error "FileNotFoundError", popen := fun _ => .ok ("", "") }

/-- A supervisor that does not know the queried unit: `is-active` exits
with 3 and `status` reports `could not be found` on stderr. -/
def envUnknownSvc : SvcEnv :=
  { call := fun _ => .ok 3
    popen := fun _ => .ok ("raw status text", "Unit x.service could not be found.") }

/-- A supervisor with a stopped-but-existing unit: `is-active` exits with
3 and `status` prints plain status text with empty stderr. -/
def envStoppedSvc : SvcEnv :=
  { call := fun _ => .ok 3, popen := fun _ => .ok ("inactive (dead)", "") }

/-- A fully healthy world for `main`. -/
def goodEnv : Env :=
  { acct := goodAcctEnv, osi := goodOsEnv, hw := goodHwEnv, net := goodNetEnv
    installed := [("psutil", "5.9.0")], db := cdbF, svc := csvc0 }

/-- The report `main` produces on `goodEnv`. -/
def goodReport : Report :=
  { acc := [("pi@/dev/pts/0", .selfEntry 10)]
    os := { system := "Linux", release := "r", version := "v", platformStr := "p"
            dist := some (.linux ("glibc", "2.31")) }
    hw := { arch := ("64bit", "ELF"), machine := "x86_64", cpus := some 4
            cores := some 4, load := (0, 0, 0), disk := ⟨100, 40, 60⟩ }
    net := { namei := [(1, "lo")], ifaces := [("lo", [("bytes_sent", 5)])] }
    deps := [("psutil", "5.9.0")]
    state := { db := { available := false, size := 0, records := [] }
               svc := [("frontend", ⟨true, 0, ""⟩), ("backend", ⟨true, 0, ""⟩),
                       ("kiosk", ⟨true, 0, ""⟩), ("watchers", ⟨true, 0, ""⟩)] } }

/-- The healthy world with one flaw: an interface is missing its I/O
counter entry. -/
def cexEnv1 : Env := { goodEnv with net := badNetEnv }

/-- The internal state produced when the datastore file exists but the
configured table set is empty. -/
def stEmptyTables : InternalState :=
  { db := { available := true, size := 7, records := [] }, svc := [] }

/-- The internal state produced on `cdbF` with no services to check. -/
def stC4 : InternalState :=
  { db := { available := false, size := 0, records := [] }, svc := [] }

/-- The internal state produced on `cdbT` with the single table `iocs`. -/
def stC5w : InternalState :=
  { db := { available := true, size := 7, records := [("iocs", 3)] }, svc := [] }

/-- The internal state produced on `cdbF`/`csvc0` with the shipped service
configuration. -/
def stC6w : InternalState :=
  { db := { available := false, size := 0, records := [] }
    svc := [("frontend", ⟨true, 0, ""⟩), ("backend", ⟨true, 0, ""⟩),
            ("kiosk", ⟨true, 0, ""⟩), ("watchers", ⟨true, 0, ""⟩)] }

/-! ## Association-list lemmas -/

theorem bind_ok {α β : Type _} (a : α) (f : α → Except String β) :
    (Except.ok a : Except String α) >>= f = f a := rfl

theorem bind_err {α β : Type _} (msg : String) (f : α → Except String β) :
    (Except.error msg : Except String α) >>= f = (Except.error msg : Except String β) := rfl

theorem dinsert_ne_nil (k : String) (v : α) (l : List (String × α)) :
    dinsert k v l ≠ [] := by
  cases l with
  | nil => simp [dinsert]
  | cons h t =>
    obtain ⟨k₀, v₀⟩ := h
    by_cases hk : k₀ = k <;> simp [dinsert, hk]

theorem lookupD_dinsert (k : String) (v : α) (l : List (String × α)) :
    lookupD k (dinsert k v l) = some v := by
  induction l with
  | nil => simp [dinsert, lookupD]
  | cons h t ih =>
    obtain ⟨k₀, v₀⟩ := h
    by_cases hk : k₀ = k
    · simp [dinsert, hk, lookupD]
    · simp [dinsert, hk, lookupD, ih]

theorem mem_dinsert {p : String × α} {k : String} {v : α} {l : List (String × α)} :
    p ∈ dinsert k v l → p = (k, v) ∨ p ∈ l := by
  induction l with
  | nil => intro h; simpa [dinsert] using h
  | cons q t ih =>
    obtain ⟨k₀, v₀⟩ := q
    intro h
    by_cases hk : k₀ = k
    · simp only [dinsert, if_pos hk, List.mem_cons] at h
      rcases h with h | h
      · exact Or.inl h
      · exact Or.inr (List.mem_cons_of_mem _ h)
    · simp only [dinsert, if_neg hk, List.mem_cons] at h
      rcases h with h | h
      · subst h; exact Or.inr (List.mem_cons_self _ _)
      · rcases ih h with h' | h'
        · exact Or.inl h'
        · exact Or.inr (List.mem_cons_of_mem _ h')

theorem keys_dinsert_not_mem {k : String} {l : List (String × α)} (v : α)
    (h : k ∉ l.map Prod.fst) :
    (dinsert k v l).map Prod.fst = l.map Prod.fst ++ [k] := by
  induction l with
  | nil => simp [dinsert]
  | cons q t ih =>
    obtain ⟨k₀, v₀⟩ := q
    simp only [List.map_cons, List.mem_cons] at h
    push_neg at h
    have hk : k₀ ≠ k := fun hh => h.1 hh.symm
    simp [dinsert, hk, ih h.2]

/-! ## Sorting lemmas -/

theorem mem_insortStr {a s : String} {l : List String} :
    a ∈ insortStr s l ↔ a = s ∨ a ∈ l := by
  induction l with
  | nil => simp [insortStr]
  | cons x xs ih =>
    by_cases hle : s ≤ x
    · simp [insortStr, hle]
    · simp only [insortStr, if_neg hle, List.mem_cons, ih]
      tauto

theorem mem_sortStr {a : String} {l : List String} :
    a ∈ sortStr l ↔ a ∈ l := by
  induction l with
  | nil => simp [sortStr]
  | cons x xs ih => simp [sortStr, mem_insortStr, ih]

/-! ## Shape lemmas for the service checker -/

theorem checkService_ok {env : SvcEnv} {svcId : String} {ent : SvcEntry}
    (h : checkService env svcId = .ok ent) :
    ∃ c, env.call ["systemctl", "is-active", "--quiet", svcId] = .ok c ∧
      ent.status = c ∧ ent.running = (c == 0) ∧
      ((c = 0 ∧ ent.state = "") ∨
       (c ≠ 0 ∧ ∃ o e,
         env.popen ["systemctl", "status", svcId, "|", "grep", twoQuotes] = .ok (o, e) ∧
         ent.state = if substrOf "could not be found" e then "Service not found" else o)) := by
  unfold checkService at h
  cases hc : env.call ["systemctl", "is-active", "--quiet", svcId] with
  | error msg => rw [hc, bind_err] at h; exact Except.noConfusion h
  | ok c =>
    rw [hc, bind_ok] at h
    by_cases hz : c = 0
    · subst hz
      rw [if_neg (by simp), bind_ok] at h
      cases h
      exact ⟨0, rfl, rfl, rfl, Or.inl ⟨rfl, rfl⟩⟩
    · rw [if_pos hz] at h
      cases hq : env.popen ["systemctl", "status", svcId, "|", "grep", twoQuotes] with
      | error msg => simp only [hq, bind_err] at h; exact Except.noConfusion h
      | ok r =>
        obtain ⟨o, e⟩ := r
        simp only [hq, bind_ok] at h
        cases h
        exact ⟨c, rfl, rfl, rfl, Or.inr ⟨hz, o, e, rfl, rfl⟩⟩

/-! ## Shape lemmas for the services loop -/

theorem collect_services_spec (env : SvcEnv) :
    ∀ (tc : List (String × String)) (acc m : List (String × SvcEntry)),
    collect_services env tc acc = .ok m →
    (∀ a ∈ tc.map Prod.fst, a ∉ acc.map Prod.fst) →
    (tc.map Prod.fst).Nodup →
    m.map Prod.fst = acc.map Prod.fst ++ tc.map Prod.fst ∧
    ∀ p ∈ m, p ∈ acc ∨ ∃ svcId, checkService env svcId = .ok p.2 := by
  intro tc
  induction tc with
  | nil =>
    intro acc m h _ _
    cases h
    exact ⟨by simp, fun p hp => Or.inl hp⟩
  | cons q rest ih =>
    obtain ⟨alias_, svcId⟩ := q
    intro acc m h hdisj hnd
    simp only [collect_services] at h
    cases he : checkService env svcId with
    | error msg => rw [he, bind_err] at h; exact Except.noConfusion h
    | ok entry =>
      rw [he, bind_ok] at h
      have halias : alias_ ∉ acc.map Prod.fst := by
        exact hdisj alias_ (by simp)
      have hkeys := keys_dinsert_not_mem (l := acc) entry halias
      simp only [List.map_cons, List.nodup_cons] at hnd
      have hdisj' : ∀ a ∈ rest.map Prod.fst, a ∉ (dinsert alias_ entry acc).map Prod.fst := by
        intro a ha
        rw [hkeys]
        simp only [List.mem_append, List.mem_singleton]
        rintro (h₁ | h₂)
        · exact hdisj a (by simp [ha]) h₁
        · exact hnd.1 (h₂ ▸ ha)
      obtain ⟨hk, hm⟩ := ih (dinsert alias_ entry acc) m h hdisj' hnd.2
      constructor
      · rw [hk, hkeys]
        simp
      · intro p hp
        rcases hm p hp with hpa | hid
        · rcases mem_dinsert hpa with h₁ | h₂
          · exact Or.inr ⟨svcId, by rw [he, h₁]⟩
          · exact Or.inl h₂
        · exact Or.inr hid

/-! ## Shape lemmas for the table-count loop -/

theorem collect_db_ne_nil {env : DbEnv} {db_path : String} :
    ∀ (ts : List String) (acc m : List (String × Int)),
    collect_db_tables_records_count env db_path ts acc = .ok m →
    (acc ≠ [] ∨ ts ≠ []) → m ≠ [] := by
  intro ts
  induction ts with
  | nil =>
    intro acc m h hne
    cases h
    rcases hne with h₁ | h₂
    · exact h₁
    · exact absurd rfl h₂
  | cons table rest ih =>
    intro acc m h _
    simp only [collect_db_tables_records_count] at h
    cases hq : env.sqlite3 ["sqlite3", db_path, "SELECT COUNT(*) FROM " ++ table] with
    | error msg => rw [hq, bind_err] at h; exact Except.noConfusion h
    | ok val =>
      rw [hq, bind_ok] at h
      by_cases hv : val = ""
      · rw [if_pos hv, bind_ok] at h
        exact ih _ m h (Or.inl (dinsert_ne_nil _ _ _))
      · rw [if_neg hv] at h
        cases hp : parseIntPy val with
        | error msg => rw [hp, bind_err] at h; exact Except.noConfusion h
        | ok n =>
          rw [hp, bind_ok] at h
          exact ih _ m h (Or.inl (dinsert_ne_nil _ _ _))

/-! ## Shape lemma for the internal-state aggregator -/

theorem collect_internal_state_ok {dbEnv : DbEnv} {svcEnv : SvcEnv}
    {db_path : String} {tables : List String} {to_check : List (String × String)}
    {s : InternalState}
    (h : collect_internal_state dbEnv svcEnv db_path tables to_check = .ok s) :
    ∃ svcs, collect_services svcEnv to_check [] = .ok svcs ∧ s.svc = svcs ∧
      ((dbEnv.isfile db_path = false ∧ s.db = ⟨false, 0, []⟩) ∨
       (dbEnv.isfile db_path = true ∧ ∃ recs,
         collect_db_tables_records_count dbEnv db_path tables [] = .ok recs ∧
         s.db = ⟨true, dbEnv.statSize db_path, recs⟩)) := by
  unfold collect_internal_state at h
  cases hav : dbEnv.isfile db_path with
  | true =>
    rw [hav] at h
    rw [if_pos rfl] at h
    cases hrec : collect_db_tables_records_count dbEnv db_path tables [] with
    | error msg => simp only [hrec, bind_err] at h; exact Except.noConfusion h
    | ok recs =>
      simp only [hrec, bind_ok] at h
      cases hsv : collect_services svcEnv to_check [] with
      | error msg => simp only [hsv, bind_err] at h; exact Except.noConfusion h
      | ok svcs =>
        simp only [hsv, bind_ok] at h
        cases h
        exact ⟨svcs, rfl, rfl, Or.inr ⟨rfl, recs, rfl, rfl⟩⟩
  | false =>
    rw [hav] at h
    rw [if_neg (by simp)] at h
    simp only [bind_ok] at h
    cases hsv : collect_services svcEnv to_check [] with
    | error msg => simp only [hsv, bind_err] at h; exact Except.noConfusion h
    | ok svcs =>
      simp only [hsv, bind_ok] at h
      cases h
      exact ⟨svcs, rfl, rfl, Or.inl ⟨rfl, rfl⟩⟩

/-! ## Shape lemma for the dependency loop -/

theorem depLoop_spec (package_list : List String) (installed : List (String × String)) :
    ∀ (pkgs : List String) (deps m : List (String × String)),
    depLoop package_list pkgs deps = .ok m →
    (∀ pkg ∈ pkgs, ∃ p, p ∈ installed ∧ pysplitEqEq pkg = [p.1, p.2]) →
    ∀ q ∈ m, q ∈ deps ∨ (q.1 ∈ package_list ∧ q ∈ installed) := by
  intro pkgs
  induction pkgs with
  | nil =>
    intro deps m h _ q hq
    cases h
    exact Or.inl hq
  | cons pkg rest ih =>
    intro deps m h hp q hq
    obtain ⟨p, hpin, hsplit⟩ := hp pkg (by simp)
    simp only [depLoop, hsplit] at h
    by_cases hc : package_list.contains p.1
    · rw [if_pos hc] at h
      rcases ih _ m h (fun pk hpk => hp pk (by simp [hpk])) q hq with hdep | hgood
      · rcases mem_dinsert hdep with heq | hdeps
        · subst heq
          exact Or.inr ⟨by simpa using hc, hpin⟩
        · exact Or.inl hdeps
      · exact Or.inr hgood
    · rw [if_neg hc] at h
      rcases ih _ m h (fun pk hpk => hp pk (by simp [hpk])) q hq with hdep | hgood
      · exact Or.inl hdep
      · exact Or.inr hgood

/-! ## Claims -/

/-- C2, counterexample: the claim says `check(alias, serviceId)` never
throws even when the supervisor binary is missing.  In the code the very
first supervisor access is a bare `subprocess.call(['systemctl', ...])`:
when the `systemctl` binary is absent the spawn raises
`FileNotFoundError`, which propagates and aborts the whole report instead
of degrading to `running = false`. -/
theorem C2_counterexample :
    checkService envNoBin "tinycheck-backend.service" = .error "FileNotFoundError" :=
  rfl

/-- C2, amended: whenever the supervisor answers — `is-active` returns an
exit code `c` (an unreachable supervisor yields a non-zero code, not an
exception) and the `status` query returns output — the checker returns a
result with `running = (c == 0)` and a detail reflecting the lookup, and
never throws in that regime.  Only a missing supervisor binary (a raised
spawn error) aborts the report. -/
theorem C2_amended_never_throws (env : SvcEnv) (svcId : String) (c : Int) (o e : String)
    (hc : env.call ["systemctl", "is-active", "--quiet", svcId] = .ok c)
    (hq : env.popen ["systemctl", "status", svcId, "|", "grep", twoQuotes] = .ok (o, e)) :
    checkService env svcId =
      .ok { running := c == 0, status := c
            state := if c = 0 then ""
                     else if substrOf "could not be found" e then "Service not found" else o } := by
  unfold checkService
  rw [hc, bind_ok]
  by_cases hz : c = 0
  · subst hz
    rw [if_neg (by simp), bind_ok, if_pos rfl]
  · rw [if_pos hz, hq, bind_ok, bind_ok, if_neg hz]

/-- Witness for C2: a supervisor that is reachable but does not know the
unit (exit code 3, `could not be found` on stderr) yields a degraded
entry, not an exception. -/
theorem C2_witness :
    checkService envUnknownSvc "tinycheck-backend.service" =
      .ok { running := false, status := 3, state := "Service not found" } :=
  C2_amended_never_throws envUnknownSvc "tinycheck-backend.service" 3 "raw status text"
    "Unit x.service could not be found." rfl rfl

/-- C3, counterexample: the claim says a failed or unparsable per-table
count yields `0` and never aborts the inspection.  In the code
`int(val) if val else 0` only maps *empty* output to `0`: non-empty
unparsable output (here the `iocs` query printing `junk`) raises
`ValueError`, aborting the whole inspection and losing the counts of
`whitelist` and `misp` as well. -/
theorem C3_counterexample :
    collect_db_tables_records_count envJunk "p" ["iocs", "whitelist", "misp"] [] =
      .error "ValueError" :=
  rfl

/-- C3, amended: an *empty* query result is treated as count `0` for that
table and the loop proceeds to the remaining tables unharmed; a non-empty
unparsable result, however, raises `ValueError` and aborts the
inspection. -/
theorem C3_amended_empty_is_zero (env : DbEnv) (db_path table : String)
    (rest : List String) (acc : List (String × Int))
    (h : env.sqlite3 ["sqlite3", db_path, "SELECT COUNT(*) FROM " ++ table] = .ok "") :
    collect_db_tables_records_count env db_path (table :: rest) acc =
      collect_db_tables_records_count env db_path rest (dinsert table 0 acc) := by
  simp only [collect_db_tables_records_count, h, bind_ok, if_pos rfl]
  simp

/-- Witness for C3: with every count query printing nothing, the `iocs`
table records count `0` and the loop continues with `whitelist`. -/
theorem C3_witness :
    collect_db_tables_records_count envEmptyOut "p" ["iocs", "whitelist"] [] =
      collect_db_tables_records_count envEmptyOut "p" ["whitelist"] [("iocs", 0)] :=
  C3_amended_empty_is_zero envEmptyOut "p" "iocs" ["whitelist"] [] rfl

/-- C4 (confirmed): for every returned internal state,
`available = isfile(path)`; when the file is absent the db report is
`{available: false, size: 0, records: {}}` and no stat or query I/O can
influence the result (the outcome is identical for arbitrary `statSize`
and `sqlite3` behaviours); when the file is present `size` is the stat
byte length. -/
theorem C4_db_inspector (dbEnv : DbEnv) (svcEnv : SvcEnv) (db_path : String)
    (tables : List String) (to_check : List (String × String)) :
    (∀ s, collect_internal_state dbEnv svcEnv db_path tables to_check = .ok s →
      s.db.available = dbEnv.isfile db_path ∧
      (dbEnv.isfile db_path = false → s.db.size = 0 ∧ s.db.records = []) ∧
      (dbEnv.isfile db_path = true → s.db.size = dbEnv.statSize db_path)) ∧
    (dbEnv.isfile db_path = false → ∀ sz q,
      collect_internal_state { isfile := dbEnv.isfile, statSize := sz, sqlite3 := q }
        svcEnv db_path tables to_check =
      collect_internal_state dbEnv svcEnv db_path tables to_check) := by
  constructor
  · intro s hs
    obtain ⟨svcs, hsv, hssvc, hdb⟩ := collect_internal_state_ok hs
    rcases hdb with ⟨hav, hdbeq⟩ | ⟨hav, recs, hrec, hdbeq⟩
    · rw [hdbeq, hav]
      refine ⟨rfl, fun _ => ⟨rfl, rfl⟩, fun hcontra => ?_⟩
      exact absurd hcontra (by simp)
    · rw [hdbeq, hav]
      refine ⟨rfl, fun hcontra => ?_, fun _ => rfl⟩
      exact absurd hcontra (by simp)
  · intro hav sz q
    simp [collect_internal_state, hav]

/-- Witness for C4: with the datastore file absent the inspector reports
`available = false`, `size = 0`, `records = {}`. -/
theorem C4_witness :
    stC4.db.available = false ∧ stC4.db.size = 0 ∧ stC4.db.records = [] := by
  have h := (C4_db_inspector cdbF csvc0 tc_db_path tc_tables []).1 stC4 rfl
  exact ⟨h.1, (h.2.1 rfl).1, (h.2.1 rfl).2⟩

/-- C5, counterexample: the claim states an if-and-only-if — `db.records`
empty exactly when `db.available` is false.  With the datastore file
present but an empty configured table set, the aggregator returns
`available = true` with `records = {}`: available yet empty, refuting the
"available implies non-empty" direction. -/
theorem C5_counterexample :
    collect_internal_state cdbT csvc0 "p" [] [] = .ok stEmptyTables ∧
    stEmptyTables.db.available = true ∧ stEmptyTables.db.records = [] :=
  ⟨rfl, rfl, rfl⟩

/-- C5, amended: `db.records` is empty whenever `db.available` is false,
and when `db.available` is true `records` holds one entry per configured
table, hence is non-empty whenever the configured table set is non-empty
(as in the shipped three-table configuration). -/
theorem C5_records_empty_conditions (dbEnv : DbEnv) (svcEnv : SvcEnv)
    (db_path : String) (tables : List String) (to_check : List (String × String))
    (s : InternalState)
    (h : collect_internal_state dbEnv svcEnv db_path tables to_check = .ok s) :
    (s.db.available = false → s.db.records = []) ∧
    (s.db.available = true → tables ≠ [] → s.db.records ≠ []) := by
  obtain ⟨svcs, hsv, hssvc, hdb⟩ := collect_internal_state_ok h
  rcases hdb with ⟨hav, hdbeq⟩ | ⟨hav, recs, hrec, hdbeq⟩
  · rw [hdbeq]
    exact ⟨fun _ => rfl, fun hcontra => absurd hcontra (by simp)⟩
  · rw [hdbeq]
    refine ⟨fun hcontra => absurd hcontra (by simp), fun _ htne => ?_⟩
    exact collect_db_ne_nil tables [] recs hrec (Or.inr htne)

/-- Witness for C5: datastore present with one configured table gives a
non-empty records mapping. -/
theorem C5_witness : stC5w.db.records ≠ [] :=
  (C5_records_empty_conditions cdbT csvc0 "p" ["iocs"] [] stC5w rfl).2 rfl (by simp)

/-- C6 (confirmed): whenever the aggregator returns, the `svc` mapping has
exactly the configured aliases as keys, in configuration order, each
exactly once (the configured alias set is a dict, hence has no duplicate
keys), and every entry satisfies `running = (exitStatus == 0)`. -/
theorem C6_services_complete (dbEnv : DbEnv) (svcEnv : SvcEnv) (db_path : String)
    (tables : List String) (to_check : List (String × String)) (s : InternalState)
    (hnd : (to_check.map Prod.fst).Nodup)
    (h : collect_internal_state dbEnv svcEnv db_path tables to_check = .ok s) :
    s.svc.map Prod.fst = to_check.map Prod.fst ∧
    (∀ a ∈ to_check.map Prod.fst, (s.svc.map Prod.fst).count a = 1) ∧
    (∀ q ∈ s.svc, q.2.running = true ↔ q.2.status = 0) := by
  obtain ⟨svcs, hsv, hssvc, _⟩ := collect_internal_state_ok h
  obtain ⟨hkeys, hmem⟩ :=
    collect_services_spec svcEnv to_check [] svcs hsv (by simp) hnd
  have hk : s.svc.map Prod.fst = to_check.map Prod.fst := by
    rw [hssvc, hkeys]; simp
  refine ⟨hk, ?_, ?_⟩
  · intro a ha
    rw [hk]
    exact List.count_eq_one_of_mem hnd ha
  · intro q hq
    rw [hssvc] at hq
    rcases hmem q hq with habs | ⟨svcId, hok⟩
    · simp at habs
    · obtain ⟨c, _, hstat, hrun, _⟩ := checkService_ok hok
      rw [hrun, hstat]
      simp

/-- Witness for C6: the shipped four-service configuration against a
healthy supervisor yields exactly the four aliases in order. -/
theorem C6_witness :
    stC6w.svc.map Prod.fst = ["frontend", "backend", "kiosk", "watchers"] :=
  (C6_services_complete cdbF csvc0 tc_db_path tc_tables tc_services stC6w
    (by decide) rfl).1

/-- C7 (confirmed): for a returned service entry, if the service is
running the detail is the empty string; if it is not running and the
stderr of the status query contains the `could not be found` marker the
detail is `Service not found`; otherwise the detail is the raw stdout of
the status query (possibly empty) — an existing-but-stopped service keeps
its raw status text. -/
theorem C7_detail_cases (env : SvcEnv) (svcId : String) (ent : SvcEntry) (o e : String)
    (h : checkService env svcId = .ok ent)
    (hq : env.popen ["systemctl", "status", svcId, "|", "grep", twoQuotes] = .ok (o, e)) :
    (ent.running = true → ent.state = "") ∧
    (ent.running = false →
      ent.state = if substrOf "could not be found" e then "Service not found" else o) := by
  obtain ⟨c, hc, hstat, hrun, hcase⟩ := checkService_ok h
  rcases hcase with ⟨hz, hst⟩ | ⟨hz, o', e', hq', hst⟩
  · subst hz
    refine ⟨fun _ => hst, fun hfalse => ?_⟩
    rw [hrun] at hfalse
    exact absurd hfalse (by simp)
  · have hoe : o' = o ∧ e' = e := by
      have := hq.symm.trans hq'
      simpa [eq_comm] using this
    obtain ⟨ho, he⟩ := hoe
    subst ho
    subst he
    refine ⟨fun htrue => ?_, fun _ => hst⟩
    rw [hrun] at htrue
    simp only [beq_iff_eq] at htrue
    exact absurd htrue hz

/-- Witness for C7: a unit unknown to the supervisor (marker on stderr)
gets detail `Service not found`. -/
theorem C7_witness :
    (⟨false, 3, "Service not found"⟩ : SvcEntry).state = "Service not found" := by
  have h := C7_detail_cases envUnknownSvc "x" ⟨false, 3, "Service not found"⟩
    "raw status text" "Unit x.service could not be found." rfl rfl
  exact (h.2 rfl).trans (by rfl)

/-- C8, counterexample: the claim says the synthetic self-entry is always
*in addition to* the session entries and never replaces one.  When the
self key `usr@term` collides with a session key (here both are
`root@tty1`), the dict assignment *overwrites* the session entry: the
result holds a single entry carrying only the pid, and the session data
(started time, terminal) is gone. -/
theorem C8_counterexample :
    collect_accounts_info collideAcctEnv = .ok [("root@tty1", AccountVal.selfEntry 42)] :=
  rfl

/-- C8, amended: whenever the collector's user and terminal resolve (are
not `None`), the accounts report contains the synthetic self-entry holding
the collector's pid under the key `user@terminal`; it is stored by dict
assignment into the same mapping as the session entries, so it replaces a
session entry whose key coincides instead of being added alongside it. -/
theorem C8_self_entry_present (env : AcctEnv) (u t : String)
    (m : List (String × AccountVal))
    (hu : acct_user env = some u) (ht : acct_term env = some t)
    (hm : collect_accounts_info env = .ok m) :
    lookupD (u ++ "@" ++ t) m = some (.selfEntry env.pid) := by
  simp only [collect_accounts_info, hu, ht] at hm
  cases hm
  exact lookupD_dinsert _ _ _

/-- Witness for C8: a run with no sessions still reports the self-entry
with the collector's pid. -/
theorem C8_witness :
    lookupD "pi@/dev/pts/0" [("pi@/dev/pts/0", AccountVal.selfEntry 10)] =
      some (AccountVal.selfEntry 10) :=
  C8_self_entry_present goodAcctEnv "pi" "/dev/pts/0"
    [("pi@/dev/pts/0", AccountVal.selfEntry 10)] rfl rfl rfl

/-- C9 (confirmed): whenever the dependency probe returns (its split of
`name==version` strings round-trips, as it does for real package keys and
versions, which contain no `==`), every reported pair has its name in the
configured allow-list and is an actually installed `(name, version)` pair
— keys are a subset of the allow-list, names are installed, and the value
is the exact installed version string. -/
theorem C9_deps (installed : List (String × String)) (package_list : List String)
    (m : List (String × String))
    (hsplit : ∀ p ∈ installed, pysplitEqEq (p.1 ++ "==" ++ p.2) = [p.1, p.2])
    (hm : collect_dependency_info installed package_list = .ok m) :
    ∀ q ∈ m, q.1 ∈ package_list ∧ q ∈ installed := by
  unfold collect_dependency_info at hm
  intro q hq
  have hp : ∀ pkg ∈ sortStr (installed.map fun p => p.1 ++ "==" ++ p.2),
      ∃ p, p ∈ installed ∧ pysplitEqEq pkg = [p.1, p.2] := by
    intro pkg hpkg
    rw [mem_sortStr] at hpkg
    obtain ⟨p, hpin, hpeq⟩ := List.mem_map.mp hpkg
    exact ⟨p, hpin, by rw [← hpeq]; exact hsplit p hpin⟩
  rcases depLoop_spec package_list installed _ [] m hm hp q hq with habs | hgood
  · simp at habs
  · exact hgood

/-- Witness for C9 (end-to-end scenario D): allow-list
`{psutil, flask}` with only `psutil 5.9.0` installed yields exactly
`{psutil: 5.9.0}`, whose single entry is allow-listed and installed. -/
theorem C9_witness :
    collect_dependency_info [("psutil", "5.9.0")] ["psutil", "flask"] =
      .ok [("psutil", "5.9.0")] ∧
    ("psutil" ∈ ["psutil", "flask"] ∧ ("psutil", "5.9.0") ∈ [("psutil", "5.9.0")]) :=
  ⟨rfl, C9_deps [("psutil", "5.9.0")] ["psutil", "flask"] [("psutil", "5.9.0")]
    (by decide) rfl ("psutil", "5.9.0") (by decide)⟩

/-- C10 (confirmed): the allow-list check is Python's `in` on exact
strings, with no normalization.  Since `pkg_resources` exposes
lowercase-normalized keys, an allow-list entry that is not fixed by
lowercasing (i.e. contains an uppercase letter) never appears as a key of
the dependency report, installed or not. -/
theorem C10_case_sensitive (installed : List (String × String))
    (package_list : List String) (a v : String) (m : List (String × String))
    (hsplit : ∀ p ∈ installed, pysplitEqEq (p.1 ++ "==" ++ p.2) = [p.1, p.2])
    (hlower : ∀ p ∈ installed, lowerStr p.1 = p.1)
    (ha : lowerStr a ≠ a)
    (hm : collect_dependency_info installed package_list = .ok m) :
    (a, v) ∉ m := by
  intro hmem
  unfold collect_dependency_info at hm
  have hp : ∀ pkg ∈ sortStr (installed.map fun p => p.1 ++ "==" ++ p.2),
      ∃ p, p ∈ installed ∧ pysplitEqEq pkg = [p.1, p.2] := by
    intro pkg hpkg
    rw [mem_sortStr] at hpkg
    obtain ⟨p, hpin, hpeq⟩ := List.mem_map.mp hpkg
    exact ⟨p, hpin, by rw [← hpeq]; exact hsplit p hpin⟩
  rcases depLoop_spec package_list installed _ [] m hm hp (a, v) hmem with habs | hgood
  · simp at habs
  · exact ha (hlower (a, v) hgood.2)

/-- Witness for C10: with `flask 2.0.1` installed (lowercase key) and the
allow-list containing `Flask`, the report is empty and in particular does
not contain `Flask`. -/
theorem C10_witness :
    collect_dependency_info [("flask", "2.0.1")] ["Flask"] = .ok [] ∧
    ("Flask", "2.0.1") ∉ ([] : List (String × String)) :=
  ⟨rfl, C10_case_sensitive [("flask", "2.0.1")] ["Flask"] "Flask" "2.0.1" []
    (by decide) (by decide) (by decide) rfl⟩

/-- C1, counterexample: the claim says the report builder always produces
the complete six-section report, with probe-level partial failures (e.g.
an interface missing a counter) represented as omissions.  In the code the
network probe does `state[interface]` with no guard: on a world where
`eth0` is listed by `net_if_addrs` but absent from
`net_io_counters(pernic=True)` this raises `KeyError`, the exception
propagates through `main`, and no report is produced at all. -/
theorem C1_counterexample : main cexEnv1 = .error "KeyError" :=
  rfl

/-- C1, amended: the report builder returns the report with all six
sections — each equal to its probe's output — whenever every fallible
probe returns; there is no error handling in `main`, so any probe-level
exception (missing interface counter, unparsable table count, missing
supervisor binary, unresolvable user/terminal, unsupported load average)
propagates and the report is not produced.  Only a not-installed package
is genuinely represented as an omitted entry. -/
theorem C1_report_assembled (env : Env) (a : List (String × AccountVal))
    (hw : HwInfo) (nt : NetInfo) (d : List (String × String)) (st : InternalState)
    (ha : collect_accounts_info env.acct = .ok a)
    (hh : collect_hardware_info env.hw = .ok hw)
    (hn : collect_network_info env.net = .ok nt)
    (hd : collect_dependency_info env.installed tc_deps = .ok d)
    (hs : collect_internal_state env.db env.svc tc_db_path tc_tables tc_services = .ok st) :
    main env = .ok { acc := a, os := collect_os_info env.osi, hw := hw
                     net := nt, deps := d, state := st } := by
  unfold main
  rw [ha, bind_ok, hh, bind_ok, hn, bind_ok, hd, bind_ok, hs, bind_ok]

/-- Witness for C1: on a fully healthy world `main` produces the full
six-section report. -/
theorem C1_witness : main goodEnv = .ok goodReport :=
  C1_report_assembled goodEnv goodReport.acc goodReport.hw goodReport.net
    goodReport.deps goodReport.state rfl rfl rfl rfl rfl

end TinyCheck
